import Mathlib

/-!
Verification development for the chat-assistant repository
(session store `useChat.ts`, completion client `openai.ts`,
search client `tavily.ts`, persistence adapter `storage.ts`).

The TypeScript sources are shallowly embedded: JavaScript runtime values
that flow through untyped positions (parsed JSON, API response bodies)
are modelled by the `Json` type below; the typed application records
(`Message`, `Session`) are Lean structures whose string-typed fields keep
the runtime representation (for example `role` is a `String`, since the
runtime never enforces the literal union).  Asynchronous I/O (fetch,
localStorage) is modelled by passing the outcome of each I/O action in
explicitly as an environment value, and each operation returns, besides
its result, the observable traces the claims talk about (status
notifications, HTTP completion calls issued).

String primitives (`trim`, `slice`, `includes`, `toLowerCase`) are
re-implemented over character lists so that all definitions evaluate
inside the kernel.
-/

/-- JavaScript `String.prototype.trim` (drop leading and trailing whitespace). -/
def jsTrim (s : String) : String :=
  ⟨((s.data.dropWhile Char.isWhitespace).reverse.dropWhile Char.isWhitespace).reverse⟩

/-- JavaScript `String.prototype.slice(0, n)` on the embedded strings. -/
def strTake (s : String) (n : Nat) : String := ⟨s.data.take n⟩

/-- JavaScript `String.prototype.toLowerCase` (ASCII case folding suffices here). -/
def strToLower (s : String) : String := ⟨s.data.map Char.toLower⟩

/-- Check that the second list is a leading segment of the first. -/
def charsStartWith : List Char → List Char → Bool
  | _, [] => true
  | [], _ :: _ => false
  | a :: as, b :: bs => a == b && charsStartWith as bs

/-- Check that the second list occurs contiguously inside the first. -/
def charsInclude : List Char → List Char → Bool
  | [], pat => charsStartWith [] pat
  | a :: as, pat => charsStartWith (a :: as) pat || charsInclude as pat

/-- JavaScript `String.prototype.includes`. -/
def strIncludes (s pat : String) : Bool := charsInclude s.data pat.data

/-- Dynamic JSON values: the runtime shape of everything JavaScript parses
from or hands to `JSON.parse` / `JSON.stringify` and of API response bodies.
Numbers are restricted to integers; no embedded code path computes with
fractional JSON numbers. -/
inductive Json where
  | null
  | bool (b : Bool)
  | num (n : Int)
  | str (s : String)
  | arr (items : List Json)
  | obj (fields : List (String × Json))

/-- Property access `j.key` on a JavaScript value: `none` plays the role of
`undefined` (absent field, or access on a non-object). -/
def Json.field? : Json → String → Option Json
  | .obj fields, key => fields.lookup key
  | _, _ => none

/-- Index access `j[i]` on a JavaScript array value. -/
def Json.item? : Json → Nat → Option Json
  | .arr items, i => items.get? i
  | _, _ => none

/-- JavaScript truthiness of a value. -/
def jsTruthy : Json → Bool
  | .null => false
  | .bool b => b
  | .num n => !(n == 0)
  | .str s => !(s == "")
  | .arr _ => true
  | .obj _ => true

/-- Truthiness where `none` stands for `undefined`. -/
def jsTruthyO : Option Json → Bool
  | none => false
  | some j => jsTruthy j

/-- Test whether a value is exactly a given string (JavaScript `===`). -/
def Json.isStr : Json → String → Bool
  | .str t, s => t == s
  | _, _ => false

mutual

/-- JavaScript `String(x)` coercion (arrays join their elements with commas;
objects render as the usual placeholder). -/
def jsToString : Json → String
  | .null => "null"
  | .bool b => cond b "true" "false"
  | .num n => toString n
  | .str s => s
  | .arr items => jsArrToString items
  | .obj _ => "[object Object]"

/-- Comma join used by `String` on arrays. -/
def jsArrToString : List Json → String
  | [] => ""
  | [j] => jsToString j
  | j :: j₂ :: rest => jsToString j ++ "," ++ jsArrToString (j₂ :: rest)

end

/-- Escape one character for a JSON string literal. -/
def escapeChar (c : Char) : String :=
  if c == '"' then "\\\""
  else if c == '\\' then "\\\\"
  else if c == '\n' then "\\n"
  else String.singleton c

/-- Escape a string body for `JSON.stringify`. -/
def escapeStr (s : String) : String := String.join (s.data.map escapeChar)

/-- Left brace character, kept out of string literals. -/
def braceL : String := String.singleton (Char.ofNat 123)

/-- Right brace character, kept out of string literals. -/
def braceR : String := String.singleton (Char.ofNat 125)

mutual

/-- JavaScript `JSON.stringify` on the embedded values. -/
def Json.stringify : Json → String
  | .null => "null"
  | .bool b => cond b "true" "false"
  | .num n => toString n
  | .str s => "\"" ++ escapeStr s ++ "\""
  | .arr items => "[" ++ Json.stringifyItems items ++ "]"
  | .obj fields => braceL ++ Json.stringifyFields fields ++ braceR

/-- Serialize array elements. -/
def Json.stringifyItems : List Json → String
  | [] => ""
  | [j] => Json.stringify j
  | j :: j₂ :: rest => Json.stringify j ++ "," ++ Json.stringifyItems (j₂ :: rest)

/-- Serialize object fields. -/
def Json.stringifyFields : List (String × Json) → String
  | [] => ""
  | [(k, v)] => "\"" ++ escapeStr k ++ "\":" ++ Json.stringify v
  | (k, v) :: f :: rest =>
      "\"" ++ escapeStr k ++ "\":" ++ Json.stringify v ++ "," ++ Json.stringifyFields (f :: rest)

end

/-- Skip JSON whitespace. -/
def skipWs (cs : List Char) : List Char :=
  cs.dropWhile (fun c => c == ' ' || c == '\t' || c == '\n' || c == '\r')

/-- Read a JSON string body up to the closing quote (common escapes only). -/
def readJsonString : List Char → List Char → Option (String × List Char)
  | acc, '"' :: rest => some (⟨acc.reverse⟩, rest)
  | acc, '\\' :: e :: rest =>
      if e == '"' then readJsonString ('"' :: acc) rest
      else if e == '\\' then readJsonString ('\\' :: acc) rest
      else if e == '/' then readJsonString ('/' :: acc) rest
      else if e == 'n' then readJsonString ('\n' :: acc) rest
      else if e == 't' then readJsonString ('\t' :: acc) rest
      else if e == 'r' then readJsonString ('\r' :: acc) rest
      else none
  | acc, c :: rest => readJsonString (c :: acc) rest
  | _, [] => none

/-- Split a leading run of decimal digits from the input. -/
def readDigits : List Char → List Char × List Char
  | c :: rest =>
      if c.isDigit then
        let p := readDigits rest
        (c :: p.1, p.2)
      else ([], c :: rest)
  | [] => ([], [])

/-- Accumulate decimal digits into a number. -/
def digitsToNatAux (acc : Nat) : List Char → Nat
  | [] => acc
  | c :: rest => digitsToNatAux (acc * 10 + (c.toNat - 48)) rest

mutual

/-- Fuel-indexed recursive-descent reader for one JSON value. -/
def parseJsonVal : Nat → List Char → Option (Json × List Char)
  | 0, _ => none
  | fuel + 1, cs =>
    match skipWs cs with
    | 'n' :: 'u' :: 'l' :: 'l' :: rest => some (.null, rest)
    | 't' :: 'r' :: 'u' :: 'e' :: rest => some (.bool true, rest)
    | 'f' :: 'a' :: 'l' :: 's' :: 'e' :: rest => some (.bool false, rest)
    | '"' :: rest => (readJsonString [] rest).map (fun p => (.str p.1, p.2))
    | '-' :: rest =>
        match readDigits rest with
        | ([], _) => none
        | (ds, r) => some (.num (-(digitsToNatAux 0 ds : Int)), r)
    | c :: rest =>
        if c == Char.ofNat 123 then parseJsonFields fuel rest []
        else if c == '[' then parseJsonItems fuel rest []
        else if c.isDigit then
          match readDigits (c :: rest) with
          | (ds, r) => some (.num (digitsToNatAux 0 ds : Int), r)
        else none
    | [] => none

/-- Read the items of a JSON array after the opening bracket. -/
def parseJsonItems : Nat → List Char → List Json → Option (Json × List Char)
  | 0, _, _ => none
  | fuel + 1, cs, acc =>
    match skipWs cs with
    | ']' :: rest => some (.arr acc.reverse, rest)
    | _ =>
      match parseJsonVal fuel cs with
      | some (v, rest) =>
        match skipWs rest with
        | ',' :: rest₂ => parseJsonItems fuel rest₂ (v :: acc)
        | ']' :: rest₂ => some (.arr (v :: acc).reverse, rest₂)
        | _ => none
      | none => none

/-- Read the fields of a JSON object after the opening brace. -/
def parseJsonFields : Nat → List Char → List (String × Json) → Option (Json × List Char)
  | 0, _, _ => none
  | fuel + 1, cs, acc =>
    match skipWs cs with
    | c :: rest =>
      if c == Char.ofNat 125 then some (.obj acc.reverse, rest)
      else if c == '"' then
        match readJsonString [] rest with
        | some (k, r₁) =>
          match skipWs r₁ with
          | ':' :: r₂ =>
            match parseJsonVal fuel r₂ with
            | some (v, r₃) =>
              match skipWs r₃ with
              | ',' :: r₄ => parseJsonFields fuel r₄ ((k, v) :: acc)
              | c₂ :: r₄ =>
                  if c₂ == Char.ofNat 125 then some (.obj ((k, v) :: acc).reverse, r₄)
                  else none
              | [] => none
            | none => none
          | _ => none
        | none => none
      else none
    | [] => none

end

/-- JavaScript `JSON.parse`: `none` models a thrown `SyntaxError`. -/
def jsonParse (s : String) : Option Json :=
  match parseJsonVal (4 * s.length + 16) s.data with
  | some (j, rest) => if (skipWs rest).isEmpty then some j else none
  | none => none

/-- Application chat message (`Message` in `types/chat.ts`).  `role` is kept
as a raw string because the runtime validators only check string-ness, and
`isError` is optional (`none` models an absent field). -/
structure Message where
  id : String
  role : String
  content : String
  timestamp : String
  isError : Option Bool := none
deriving DecidableEq

/-- Chat session (`Session` in `types/chat.ts`); `starred` is optional. -/
structure Session where
  id : String
  title : String
  messages : List Message
  createdAt : String
  updatedAt : String
  starred : Option Bool := none
deriving DecidableEq

/-- The JSON object a `Message` value serializes to: `JSON.stringify` drops
absent optional fields. -/
def encodeMessage (m : Message) : Json :=
  Json.obj ([("id", .str m.id), ("role", .str m.role), ("content", .str m.content),
             ("timestamp", .str m.timestamp)] ++
            (match m.isError with
             | some b => [("isError", Json.bool b)]
             | none => []))

/-- The JSON object a `Session` value serializes to. -/
def encodeSession (s : Session) : Json :=
  Json.obj ([("id", .str s.id), ("title", .str s.title),
             ("messages", .arr (s.messages.map encodeMessage)),
             ("createdAt", .str s.createdAt), ("updatedAt", .str s.updatedAt)] ++
            (match s.starred with
             | some b => [("starred", Json.bool b)]
             | none => []))

/-- Read a typed `Message` back out of a raw JSON value (the TypeScript cast). -/
def decodeMessage (j : Json) : Option Message :=
  match j.field? "id", j.field? "role", j.field? "content", j.field? "timestamp" with
  | some (.str i), some (.str r), some (.str c), some (.str t) =>
      some { id := i, role := r, content := c, timestamp := t,
             isError := match j.field? "isError" with
                        | some (.bool b) => some b
                        | _ => none }
  | _, _, _, _ => none

/-- Decode every element of a raw message array, failing if any fails. -/
def decodeMessages : List Json → Option (List Message)
  | [] => some []
  | j :: rest =>
      match decodeMessage j, decodeMessages rest with
      | some m, some ms => some (m :: ms)
      | _, _ => none

/-- Read a typed `Session` back out of a raw JSON value (the TypeScript cast). -/
def decodeSession (j : Json) : Option Session :=
  match j.field? "id", j.field? "title", j.field? "messages",
        j.field? "createdAt", j.field? "updatedAt" with
  | some (.str i), some (.str t), some (.arr ms), some (.str ca), some (.str ua) =>
      match decodeMessages ms with
      | some msgs =>
          some { id := i, title := t, messages := msgs, createdAt := ca, updatedAt := ua,
                 starred := match j.field? "starred" with
                            | some (.bool b) => some b
                            | _ => none }
      | none => none
  | _, _, _, _, _ => none

/-- Is the value object-like for `typeof x` checks (arrays included, as in
JavaScript, where `typeof [] === "object"`)? -/
def isObjLike : Json → Bool
  | .obj _ => true
  | .arr _ => true
  | .null => false
  | _ => false

/-- Does field `key` exist and hold a string? -/
def isStrField (j : Json) (key : String) : Bool :=
  match j.field? key with
  | some (.str _) => true
  | _ => false

/-- Does field `key` exist and hold an array? -/
def isArrField (j : Json) (key : String) : Bool :=
  match j.field? key with
  | some (.arr _) => true
  | _ => false

/-- Runtime type guard `isValidMessage` from `storage.ts`: object with string
`id`, `role`, `content`, `timestamp`. -/
def isValidMessage (m : Json) : Bool :=
  isObjLike m && isStrField m "id" && isStrField m "role" &&
  isStrField m "content" && isStrField m "timestamp"

/-- Runtime type guard `isValidSession` from `storage.ts`: object with string
`id`, `title`, `createdAt`, `updatedAt` and an array `messages`. -/
def isValidSession (s : Json) : Bool :=
  isObjLike s && isStrField s "id" && isStrField s "title" &&
  isArrField s "messages" && isStrField s "createdAt" && isStrField s "updatedAt"

/-- Replace field `key` in place, as the object spread with one override does. -/
def setFieldList : List (String × Json) → String → Json → List (String × Json)
  | [], key, v => [(key, v)]
  | (k, w) :: rest, key, v =>
      if k == key then (k, v) :: rest else (k, w) :: setFieldList rest key v

/-- Spread-update on an object value; non-objects are returned unchanged
(never reached on validated sessions). -/
def setField : Json → String → Json → Json
  | .obj fields, key, v => .obj (setFieldList fields key v)
  | j, _, _ => j

/-- The per-session clean-up `loadSessions` performs on the v2 path:
keep the session object, filtering its `messages` array through
`isValidMessage`.  Validated sessions always carry an array there. -/
def sessionMessagesFiltered (s : Json) : Json :=
  match s.field? "messages" with
  | some (.arr ms) => setField s "messages" (.arr (ms.filter isValidMessage))
  | _ => s

/-- The two localStorage keys the persistence adapter owns.  Values are the
parsed JSON stored under `neural_chat_sessions` (v2) and
`neural_chat_history` (legacy v1); `none` models an absent key.
Serialization between the stored text and its parsed value is taken as the
identity on `Json`. -/
structure LocalStore where
  sessionsKey : Option Json
  legacyKey : Option Json

/-- Core of `saveSessions`: write the (raw) session array truncated to the
50-session cap under the v2 key. -/
def saveSessionsJ (store : LocalStore) (sessionsJ : List Json) : LocalStore :=
  { store with sessionsKey := some (.arr (sessionsJ.take 50)) }

/-- The `saveSessions` operation of `storage.ts` on typed sessions (the write
is assumed to succeed; a quota failure leaves the store unchanged and is
swallowed by the source). -/
def saveSessions (store : LocalStore) (sessions : List Session) : LocalStore :=
  saveSessionsJ store (sessions.map encodeSession)

/-- The v1-to-v2 migration body of `loadSessions`: validate the parsed legacy
message array, and when any valid message remains, wrap all of them in one
synthesized session object (`none` models the path where the source falls
through and returns the empty collection). -/
def migrateLegacy (parsed : List Json) (freshId : String) : Option Json :=
  match parsed.filter isValidMessage with
  | [] => none
  | m₀ :: restMsgs =>
    let firstUser := (m₀ :: restMsgs).find? (fun m =>
      match m.field? "role" with
      | some (.str r) => r == "user"
      | _ => false)
    let title := match firstUser with
      | some fu =>
          strTake (match fu.field? "content" with
                   | some (.str c) => c
                   | _ => "") 40
      | none => "Previous Chat"
    let lastMsg := ((m₀ :: restMsgs).getLast?).getD m₀
    some (.obj [
      ("id", .str freshId), ("title", .str title),
      ("messages", .arr (m₀ :: restMsgs)),
      ("createdAt", .str (match m₀.field? "timestamp" with
                          | some (.str t) => t
                          | _ => "")),
      ("updatedAt", .str (match lastMsg.field? "timestamp" with
                          | some (.str t) => t
                          | _ => ""))])

/-- The `loadSessions` operation of `storage.ts`.  Returns the raw session
array handed back to the caller together with the store after any legacy
migration side effects (`removeItem` on the legacy key, re-save under v2).
`freshId` stands for the `generateId()` call of the migration path. -/
def loadSessions (store : LocalStore) (freshId : String) : List Json × LocalStore :=
  let v2 : Option (List Json) :=
    match store.sessionsKey with
    | some (.arr parsed) =>
        let sessions := (parsed.filter isValidSession).map sessionMessagesFiltered
        if sessions.length > 0 then some sessions else none
    | _ => none
  match v2 with
  | some sessions => (sessions, store)
  | none =>
    match store.legacyKey with
    | some (.arr parsed) =>
        match migrateLegacy parsed freshId with
        | some sessionJ =>
            ([sessionJ], saveSessionsJ { store with legacyKey := none } [sessionJ])
        | none => ([], store)
    | _ => ([], store)

/-- Granular loading indicator owned by the store (`chatStatus` in
`useChat.ts`). -/
inductive StoreStatus where
  | idle
  | thinking
  | searching
deriving DecidableEq

/-- Protocol message sent to the chat-completions endpoint
(`OpenAIMessage` in `types/chat.ts`).  At runtime these are plain objects,
so the embedding keeps one record with optional fields: plain user, system
and assistant messages carry only `role`/`content`; the tool-call assistant
message adds `tool_calls` (a raw JSON array) and the tool-result message
adds `tool_call_id`. -/
structure OpenAIMessage where
  role : String
  content : Option String
  tool_calls : Option Json := none
  tool_call_id : Option Json := none

/-- The in-memory store state of the `useChat` hook. -/
structure ChatState where
  sessions : List Session
  currentSessionId : Option String
  isLoading : Bool
  chatStatus : StoreStatus
deriving DecidableEq

/-- The `createEmptySession` helper of `useChat.ts`; `id` and `now` stand for
the `generateId()` and `new Date().toISOString()` calls. -/
def createEmptySession (id now : String) : Session :=
  { id := id, title := "New Chat", messages := [], createdAt := now, updatedAt := now }

/-- The state after the initial-load effect: stored sessions are adopted with
the first active, or one fresh empty session is synthesized. -/
def initialLoadState (stored : List Session) (freshId now : String) : ChatState :=
  match stored with
  | [] =>
      { sessions := [createEmptySession freshId now], currentSessionId := some freshId,
        isLoading := false, chatStatus := .idle }
  | s :: rest =>
      { sessions := s :: rest, currentSessionId := some s.id,
        isLoading := false, chatStatus := .idle }

/-- The lookup `sessions.find(s => s.id === currentSessionId)`. -/
def findCurrent (st : ChatState) : Option Session :=
  st.sessions.find? (fun s => st.currentSessionId == some s.id)

/-- The `currentMessages` read (`?.messages ?? []`). -/
def currentMessages (st : ChatState) : List Message :=
  match findCurrent st with
  | some s => s.messages
  | none => []

/-- The guard condition of `createNewSession`: the active session exists and
already has zero messages. -/
def currentIsEmpty (st : ChatState) : Bool :=
  match findCurrent st with
  | some cur => cur.messages.length == 0
  | none => false

/-- The `createNewSession` store operation. -/
def createNewSession (st : ChatState) (freshId now : String) : ChatState :=
  if currentIsEmpty st then st
  else
    { st with sessions := createEmptySession freshId now :: st.sessions,
              currentSessionId := some freshId }

/-- The `switchSession` store operation (unconditional pointer write). -/
def switchSession (st : ChatState) (id : String) : ChatState :=
  { st with currentSessionId := some id }

/-- The `deleteSession` store operation. -/
def deleteSession (st : ChatState) (id freshId now : String) : ChatState :=
  let filtered := st.sessions.filter (fun s => !(s.id == id))
  match filtered with
  | [] =>
      { st with sessions := [createEmptySession freshId now], currentSessionId := some freshId }
  | f :: rest =>
      if st.currentSessionId == some id then
        { st with sessions := f :: rest, currentSessionId := some f.id }
      else
        { st with sessions := f :: rest }

/-- The `renameSession` store operation. -/
def renameSession (st : ChatState) (id newTitle : String) : ChatState :=
  let trimmed := jsTrim newTitle
  if trimmed == "" then st
  else
    { st with sessions := st.sessions.map (fun s =>
        if s.id == id then { s with title := trimmed } else s) }

/-- The `toggleStarSession` store operation (`!undefined` is `true`). -/
def toggleStarSession (st : ChatState) (id : String) : ChatState :=
  { st with sessions := st.sessions.map (fun s =>
      if s.id == id then { s with starred := some (!(s.starred.getD false)) } else s) }

/-- The `clearCurrentSession` store operation; `confirmed` is the result of
the blocking `window.confirm` prompt, `now` the reset timestamp. -/
def clearCurrentSession (st : ChatState) (confirmed : Bool) (now : String) : ChatState :=
  if !confirmed then st
  else
    { st with sessions := st.sessions.map (fun s =>
        if st.currentSessionId == some s.id then
          { s with messages := [], title := "New Chat", updatedAt := now }
        else s) }

/-- View of an exception value as a sum, to transport decidable equality. -/
def exceptToSum (x : Except String String) : String ⊕ String :=
  match x with
  | .error e => .inl e
  | .ok a => .inr a

instance : DecidableEq (Except String String) := fun x y =>
  decidable_of_iff (exceptToSum x = exceptToSum y)
    (by cases x <;> cases y <;> simp [exceptToSum])

/-- Environment of one `sendMessage` run: the generated ids and timestamps,
and the settled outcome of the awaited `sendChatMessage` call (`Except.ok`
carries the response text, `Except.error` the displayed error message). -/
structure SendMessageEnv where
  userMsgId : String
  now : String
  outcome : Except String String
  aiMsgId : String
  aiNow : String
deriving DecidableEq

/-- Observable result of one `sendMessage` invocation: the final store state,
whether the completion request was issued, and the history snapshot it was
built from. -/
structure SendMessageResult where
  state : ChatState
  requestIssued : Bool
  requestHistory : Option (List OpenAIMessage)

/-- The `sendMessage` store operation, collapsed over one full run of its
asynchronous body (the claims here concern its guard, its history snapshot
and its final state). -/
def sendMessage (st : ChatState) (content : String) (env : SendMessageEnv) :
    SendMessageResult :=
  let trimmed := jsTrim content
  match st.currentSessionId with
  | none => { state := st, requestIssued := false, requestHistory := none }
  | some sessionId =>
    if sessionId == "" || trimmed == "" || st.isLoading then
      { state := st, requestIssued := false, requestHistory := none }
    else
      let userMessage : Message :=
        { id := env.userMsgId, role := "user", content := trimmed, timestamp := env.now }
      let apiHistory : List OpenAIMessage :=
        ((currentMessages st).filter (fun m => !(m.isError.getD false))).map
          (fun m => { role := m.role, content := some m.content }) ++
        [{ role := "user", content := some trimmed }]
      let afterUser : ChatState :=
        { st with isLoading := true, chatStatus := .thinking,
                  sessions := st.sessions.map (fun s =>
          if s.id == sessionId then
            { s with messages := s.messages ++ [userMessage],
                     title := if !(s.messages.any (fun m => m.role == "user")) then
                                strTake trimmed 40
                              else s.title,
                     updatedAt := env.now }
          else s) }
      let responseMessage : Message :=
        match env.outcome with
        | .ok responseText =>
            { id := env.aiMsgId, role := "assistant", content := responseText,
              timestamp := env.aiNow }
        | .error errText =>
            { id := env.aiMsgId, role := "assistant", content := errText,
              timestamp := env.aiNow, isError := some true }
      let afterResponse : ChatState :=
        { afterUser with sessions := afterUser.sessions.map (fun s =>
            if s.id == sessionId then
              { s with messages := s.messages ++ [responseMessage], updatedAt := env.aiNow }
            else s) }
      { state := { afterResponse with isLoading := false, chatStatus := .idle },
        requestIssued := true, requestHistory := some apiHistory }

/-- One store operation together with the ambient inputs it consumes,
used to phrase reachability of store states. -/
inductive StoreOp where
  | create (freshId now : String)
  | switch (id : String)
  | delete (id freshId now : String)
  | rename (id title : String)
  | star (id : String)
  | clear (confirmed : Bool) (now : String)
  | send (content : String) (env : SendMessageEnv)
deriving DecidableEq

/-- Apply one store operation. -/
def applyOp (st : ChatState) : StoreOp → ChatState
  | .create freshId now => createNewSession st freshId now
  | .switch id => switchSession st id
  | .delete id freshId now => deleteSession st id freshId now
  | .rename id title => renameSession st id title
  | .star id => toggleStarSession st id
  | .clear confirmed now => clearCurrentSession st confirmed now
  | .send content env => (sendMessage st content env).state

/-- The active-pointer invariant: when non-null, the pointer names an id
present in the session collection. -/
def activeRefsExisting (st : ChatState) : Bool :=
  match st.currentSessionId with
  | none => true
  | some cid => st.sessions.any (fun s => s.id == cid)

/-- One Tavily search result (`TavilyResult` in `tavily.ts`).  The relevance
score is carried opaquely (it is never computed with). -/
structure TavilyResult where
  title : String
  url : String
  content : String
  score : Int

/-- HTTP success test (`Response.ok`). -/
def isOkStatus (status : Nat) : Bool := 200 ≤ status && status < 300

/-- Outcome of the single Tavily POST of one run: a transport failure, or a
response with its status and (already decoded) result list. -/
inductive TavilyFetchOutcome where
  | netErr (msg : String)
  | resp (status : Nat) (results : List TavilyResult)

/-- Environment of the search client: the configured credential (if any)
and the outcome of its one fetch. -/
structure TavilyEnv where
  apiKey : Option String
  fetchOutcome : TavilyFetchOutcome

/-- The `searchWeb` operation of `tavily.ts`: throws (models `Except.error`)
when the credential is missing or a placeholder, on transport failure, and
on a non-success status; otherwise returns the result list. -/
def searchWeb (env : TavilyEnv) : Except String (List TavilyResult) :=
  match env.apiKey with
  | none => .error "Tavily API key is not configured."
  | some key =>
    if key == "" || key == "your_tavily_api_key_here" then
      .error "Tavily API key is not configured."
    else
      match env.fetchOutcome with
      | .netErr msg => .error msg
      | .resp status results =>
          if !(isOkStatus status) then
            .error ("Tavily search failed: " ++ toString status)
          else .ok results

/-- Render the numbered markdown lines of the sources block. -/
def sourcesLines : Nat → List TavilyResult → List String
  | _, [] => []
  | i, r :: rest =>
      (toString (i + 1) ++ ". [" ++ r.title ++ "](" ++ r.url ++ ")") :: sourcesLines (i + 1) rest

/-- The `formatSourcesMarkdown` operation of `tavily.ts`: empty string for no
results, otherwise a separator, a Sources label and one numbered link per
result (capped at 5), in input order. -/
def formatSourcesMarkdown (results : List TavilyResult) : String :=
  if results.length == 0 then ""
  else "\n\n---\n**Sources:**\n" ++ String.intercalate "\n" (sourcesLines 0 (results.take 5))

/-- Status notifications emitted through the completion client's
`onStatusChange` callback. -/
inductive ChatStatus where
  | thinking
  | searching
deriving DecidableEq

/-- The error class `OpenAIError` of `openai.ts`; `code` keeps the raw value
read off the provider error body. -/
structure OpenAIError where
  message : String
  statusCode : Option Nat := none
  code : Option Json := none

/-- A value thrown out of `sendChatMessage`: either an `OpenAIError` or a raw
JavaScript error (the unwrapped rejection of the retry fetch). -/
inductive ThrownError where
  | openai (e : OpenAIError)
  | js (message : String)

/-- Outcome of one chat-completion POST: a rejected fetch with its message, or
a response with HTTP status and decoded JSON body (bodies are taken as
parseable; an unparsable error body behaves like `Json.null`, which yields
the same fallback message the source's catch produces). -/
inductive FetchOutcome where
  | netErr (msg : String)
  | resp (status : Nat) (body : Json)

/-- One completion call as issued by `doFetch`: the message list sent and
whether the `web_search` tool declaration was attached. -/
structure CompletionCall where
  messages : List OpenAIMessage
  includeTools : Bool

/-- Environment of one `sendChatMessage` run: the configured Groq credential,
the outcomes of the (at most two) completion fetches in order, and the
search-client environment. -/
structure CompletionEnv where
  apiKey : Option String
  first : FetchOutcome
  second : FetchOutcome
  tavily : TavilyEnv

/-- Everything observable about one `sendChatMessage` run: its settled value,
the `onStatusChange` notifications in order, and the completion calls issued
in order. -/
structure SendResult where
  result : Except ThrownError String
  statuses : List ChatStatus
  calls : List CompletionCall

/-- The system message prepended to the outbound history (`buildSystemPrompt`
output is passed in, as it embeds the current date). -/
def systemMessage (sysPrompt : String) : OpenAIMessage :=
  { role := "system", content := some sysPrompt }

/-- The configuration error thrown when the Groq key is absent. -/
def missingKeyError : OpenAIError :=
  { message := "Groq API key is not configured. Please add your VITE_GROQ_API_KEY to the .env file.",
    statusCode := some 401, code := some (.str "missing_api_key") }

/-- The empty-response error. -/
def emptyResponseError : OpenAIError :=
  { message := "Received an empty response from the AI. Please try again." }

/-- Extraction `String(errBody?.error?.message || errBody?.error || "")` used
on a 400 body before deciding whether to retry. -/
def extractErrMsg (body : Json) : String :=
  let em := (body.field? "error").bind (fun e => e.field? "message")
  if jsTruthyO em then jsToString (em.getD .null)
  else
    let er := body.field? "error"
    if jsTruthyO er then jsToString (er.getD .null) else ""

/-- The `handleHttpError` helper of `openai.ts`, as the error value it throws
for a non-success response. -/
def handleHttpError (status : Nat) (body : Json) : OpenAIError :=
  let fallbackMsg := "Request failed with status " ++ toString status
  let em := (body.field? "error").bind (fun e => e.field? "message")
  let er := body.field? "error"
  let errorMessage :=
    if jsTruthyO em then jsToString (em.getD .null)
    else if jsTruthyO er then jsToString (er.getD .null)
    else fallbackMsg
  let code := (body.field? "error").bind (fun e => e.field? "code")
  if status == 401 then
    { message := "Invalid API key. Please check your VITE_GROQ_API_KEY in the .env file.",
      statusCode := some 401, code := code }
  else if status == 429 then
    { message := "Rate limit exceeded. Please wait a moment before sending another message.",
      statusCode := some 429, code := code }
  else if status == 503 then
    { message := "Service unavailable. Please try again shortly.",
      statusCode := some 503, code := code }
  else if status == 500 then
    { message := "Groq is experiencing issues. Please try again shortly.",
      statusCode := some 500, code := code }
  else
    { message := errorMessage, statusCode := some status, code := code }

/-- Classification of a rejected first fetch (`failed to fetch` and friends
become a network error, anything else a generic request failure). -/
def classifyNetErr (msg : String) : OpenAIError :=
  let lower := strToLower msg
  if strIncludes lower "failed to fetch" || strIncludes lower "load failed" ||
     strIncludes lower "networkerror" then
    { message := "Network error. Please check your internet connection and try again.",
      statusCode := some 0, code := some (.str "network_error") }
  else { message := "Request failed: " ++ msg }

/-- The first choice object `data?.choices?.[0]` of a response body. -/
def firstChoice (body : Json) : Option Json :=
  (body.field? "choices").bind (fun c => c.item? 0)

/-- The finish reason `firstChoice?.finish_reason ?? "stop"`. -/
def finishReasonOf (body : Json) : Json :=
  match (firstChoice body).bind (fun c => c.field? "finish_reason") with
  | none => .str "stop"
  | some .null => .str "stop"
  | some j => j

/-- The raw `tool_calls` array of the first choice's message. -/
def toolCallsOf (body : Json) : Option Json :=
  (firstChoice body).bind (fun c => (c.field? "message").bind (fun m => m.field? "tool_calls"))

/-- The first tool call `firstChoice?.message?.tool_calls?.[0]`. -/
def firstToolCall (body : Json) : Option Json :=
  (toolCallsOf body).bind (fun t => t.item? 0)

/-- The content string of a response body, when it is a string whose trim is
non-empty (the usable-content test repeated at each return site). -/
def usableContent (body : Json) : Option String :=
  match (firstChoice body).bind (fun c => (c.field? "message").bind (fun m => m.field? "content")) with
  | some (.str s) => if jsTrim s == "" then none else some s
  | _ => none

/-- The query extraction
`(JSON.parse(toolCall.function.arguments) as ...).query` with its
surrounding catch: an error models the thrown/caught path (non-string
arguments, unparsable JSON, or a parse result that cannot carry
properties), an `ok` carries the possibly-undefined `query` value. -/
def parseQueryArgs (toolCall : Json) : Except Unit (Option Json) :=
  match (toolCall.field? "function").bind (fun f => f.field? "arguments") with
  | some (.str s) =>
      match jsonParse s with
      | some .null => .error ()
      | some j => .ok (j.field? "query")
      | none => .error ()
  | _ => .error ()

/-- The fallback tool-result payload substituted when the search client
fails. -/
def searchFallbackPayload : String :=
  Json.stringify (.obj [("error", .str "Web search unavailable. Answer from your training knowledge.")])

/-- The tool-result payload built from successful search results (top 5,
content snippets capped at 500 characters). -/
def searchResultsPayload (results : List TavilyResult) : String :=
  Json.stringify (.arr ((results.take 5).map (fun r =>
    .obj [("title", .str r.title), ("url", .str r.url),
          ("content", .str (strTake r.content 500))])))

/-- The `sendChatMessage` operation of `openai.ts`, over one run with the
given I/O environment.  Mirrors the source's control flow: missing-key
check, first call with tools, the 400 malformed-tool-call retry without
tools, the direct return path, and the tool-call path through the search
client and the second call. -/
def sendChatMessage (env : CompletionEnv) (conversationHistory : List OpenAIMessage)
    (sysPrompt : String) : SendResult :=
  let keyBad := match env.apiKey with
    | none => true
    | some key => key == "" || key == "your_groq_api_key_here"
  if keyBad then
    { result := .error (.openai missingKeyError), statuses := [], calls := [] }
  else
    let messages := systemMessage sysPrompt :: conversationHistory
    let call₁ : CompletionCall := { messages := messages, includeTools := true }
    match env.first with
    | .netErr msg =>
        { result := .error (.openai (classifyNetErr msg)),
          statuses := [.thinking], calls := [call₁] }
    | .resp status body =>
      if !(isOkStatus status) then
        if status == 400 then
          let errMsg := extractErrMsg body
          if strIncludes errMsg "Failed to call a function" ||
             strIncludes errMsg "failed_generation" then
            let call₂ : CompletionCall := { messages := messages, includeTools := false }
            match env.second with
            | .netErr m =>
                { result := .error (.js m),
                  statuses := [.thinking, .thinking], calls := [call₁, call₂] }
            | .resp status₂ body₂ =>
              if !(isOkStatus status₂) then
                { result := .error (.openai (handleHttpError status₂ body₂)),
                  statuses := [.thinking, .thinking], calls := [call₁, call₂] }
              else
                match usableContent body₂ with
                | some c =>
                    { result := .ok c,
                      statuses := [.thinking, .thinking], calls := [call₁, call₂] }
                | none =>
                    { result := .error (.openai emptyResponseError),
                      statuses := [.thinking, .thinking], calls := [call₁, call₂] }
          else
            let m := if errMsg == "" then "Request failed with status 400" else errMsg
            { result := .error (.openai { message := m, statusCode := some 400 }),
              statuses := [.thinking], calls := [call₁] }
        else
          { result := .error (.openai (handleHttpError status body)),
            statuses := [.thinking], calls := [call₁] }
      else
        if !((finishReasonOf body).isStr "tool_calls") then
          match usableContent body with
          | some c => { result := .ok c, statuses := [.thinking], calls := [call₁] }
          | none =>
              { result := .error (.openai emptyResponseError),
                statuses := [.thinking], calls := [call₁] }
        else
          if !(jsTruthyO (firstToolCall body)) then
            { result := .error (.openai
                { message := "Model indicated tool use but provided no tool call." }),
              statuses := [.thinking], calls := [call₁] }
          else
            let toolCall := (firstToolCall body).getD .null
            match parseQueryArgs toolCall with
            | .error _ =>
                { result := .error (.openai
                    { message := "Model returned an invalid search query." }),
                  statuses := [.thinking], calls := [call₁] }
            | .ok _query =>
              let searchStep := searchWeb env.tavily
              let sourcesMarkdown := match searchStep with
                | .ok results => formatSourcesMarkdown results
                | .error _ => ""
              let searchResultContent := match searchStep with
                | .ok results => searchResultsPayload results
                | .error _ => searchFallbackPayload
              let messagesWithToolResult := messages ++
                [{ role := "assistant", content := none, tool_calls := toolCallsOf body },
                 { role := "tool", content := some searchResultContent,
                   tool_call_id := toolCall.field? "id" }]
              let call₂ : CompletionCall :=
                { messages := messagesWithToolResult, includeTools := false }
              match env.second with
              | .netErr m =>
                  { result := .error (.openai { message := "Request failed: " ++ m }),
                    statuses := [.thinking, .searching, .thinking], calls := [call₁, call₂] }
              | .resp status₂ body₂ =>
                if !(isOkStatus status₂) then
                  { result := .error (.openai (handleHttpError status₂ body₂)),
                    statuses := [.thinking, .searching, .thinking], calls := [call₁, call₂] }
                else
                  match usableContent body₂ with
                  | some c =>
                      { result := .ok (c ++ sourcesMarkdown),
                        statuses := [.thinking, .searching, .thinking],
                        calls := [call₁, call₂] }
                  | none =>
                      { result := .error (.openai emptyResponseError),
                        statuses := [.thinking, .searching, .thinking],
                        calls := [call₁, call₂] }

/-! Lemmas about serialization and validation of well-typed sessions. -/

lemma isValidMessage_encode (m : Message) : isValidMessage (encodeMessage m) = true := rfl

lemma isValidSession_encode (s : Session) : isValidSession (encodeSession s) = true := rfl

lemma decodeMessage_encode (m : Message) : decodeMessage (encodeMessage m) = some m := by
  obtain ⟨i, r, c, t, ie⟩ := m
  cases ie <;> rfl

lemma decodeMessages_map_encode (ms : List Message) :
    decodeMessages (ms.map encodeMessage) = some ms := by
  induction ms with
  | nil => rfl
  | cons a rest ih =>
      simp only [List.map_cons, decodeMessages, decodeMessage_encode, ih]

lemma decodeSession_encode (s : Session) : decodeSession (encodeSession s) = some s := by
  obtain ⟨i, t, ms, ca, ua, st⟩ := s
  cases st with
  | none =>
      show (match decodeMessages (ms.map encodeMessage) with
            | some msgs =>
                some { id := i, title := t, messages := msgs, createdAt := ca,
                       updatedAt := ua, starred := none }
            | none => (none : Option Session)) =
           some { id := i, title := t, messages := ms, createdAt := ca,
                  updatedAt := ua, starred := none }
      rw [decodeMessages_map_encode]
  | some b =>
      show (match decodeMessages (ms.map encodeMessage) with
            | some msgs =>
                some { id := i, title := t, messages := msgs, createdAt := ca,
                       updatedAt := ua, starred := some b }
            | none => (none : Option Session)) =
           some { id := i, title := t, messages := ms, createdAt := ca,
                  updatedAt := ua, starred := some b }
      rw [decodeMessages_map_encode]

lemma sessionMessagesFiltered_encode (s : Session) :
    sessionMessagesFiltered (encodeSession s) = encodeSession s := by
  have hf : (s.messages.map encodeMessage).filter isValidMessage
      = s.messages.map encodeMessage := by
    apply List.filter_eq_self.mpr
    intro a ha
    obtain ⟨m, _, rfl⟩ := List.mem_map.mp ha
    exact isValidMessage_encode m
  show (match (encodeSession s).field? "messages" with
        | some (.arr ms) => setField (encodeSession s) "messages" (.arr (ms.filter isValidMessage))
        | _ => encodeSession s) = encodeSession s
  have hm : (encodeSession s).field? "messages" = some (.arr (s.messages.map encodeMessage)) := rfl
  rw [hm]
  show setField (encodeSession s) "messages"
      (.arr ((s.messages.map encodeMessage).filter isValidMessage)) = encodeSession s
  rw [hf]
  rfl

lemma filter_isValidMessage_encode (ms : List Message) :
    (ms.map encodeMessage).filter isValidMessage = ms.map encodeMessage :=
  List.filter_eq_self.mpr (by
    intro a ha
    obtain ⟨m, _, rfl⟩ := List.mem_map.mp ha
    exact isValidMessage_encode m)

lemma find?_user_map_encode (msgs : List Message) :
    (msgs.map encodeMessage).find? (fun m =>
      match m.field? "role" with
      | some (.str r) => r == "user"
      | _ => false) = (msgs.find? (fun m => m.role == "user")).map encodeMessage := by
  induction msgs with
  | nil => rfl
  | cons a rest ih =>
      have hp : (match (encodeMessage a).field? "role" with
                 | some (.str r) => r == "user"
                 | _ => false) = (a.role == "user") := rfl
      rw [List.map_cons]
      simp only [List.find?]
      rw [hp]
      cases h : a.role == "user" with
      | true => rfl
      | false => exact ih

lemma getLast?_map_encode (msgs : List Message) :
    (msgs.map encodeMessage).getLast? = msgs.getLast?.map encodeMessage := by
  induction msgs with
  | nil => rfl
  | cons a rest ih =>
      cases rest with
      | nil => rfl
      | cons b t =>
          simp only [List.map_cons] at *
          rw [List.getLast?_cons_cons, List.getLast?_cons_cons, ih]

/-- Decode every element of a raw session array, failing if any fails. -/
def decodeSessions : List Json → Option (List Session)
  | [] => some []
  | j :: rest =>
      match decodeSession j, decodeSessions rest with
      | some s, some ss => some (s :: ss)
      | _, _ => none

lemma decodeSessions_map_encode (S : List Session) :
    decodeSessions (S.map encodeSession) = some S := by
  induction S with
  | nil => rfl
  | cons a rest ih =>
      simp only [List.map_cons, decodeSessions, decodeSession_encode, ih]

lemma map_sessionMessagesFiltered_encode (S : List Session) :
    (S.map encodeSession).map sessionMessagesFiltered = S.map encodeSession := by
  induction S with
  | nil => rfl
  | cons a rest ih =>
      simp only [List.map_cons, sessionMessagesFiltered_encode, List.cons.injEq, true_and]
      exact ih

lemma filter_isValidSession_encode (S : List Session) :
    (S.map encodeSession).filter isValidSession = S.map encodeSession :=
  List.filter_eq_self.mpr (by
    intro a ha
    obtain ⟨s, _, rfl⟩ := List.mem_map.mp ha
    exact isValidSession_encode s)

/-- The title `loadSessions` gives the migrated session: content of the first
user-role message truncated to 40 characters, else the default placeholder. -/
def migratedTitle (msgs : List Message) : String :=
  match msgs.find? (fun m => m.role == "user") with
  | some fu => strTake fu.content 40
  | none => "Previous Chat"

/-- The session object the migration path synthesizes from a well-typed
legacy message array whose first message is `m₀` and last is `mLast`. -/
def migratedSessionJ (msgs : List Message) (freshId : String) (m₀ mLast : Message) : Json :=
  .obj [("id", .str freshId), ("title", .str (migratedTitle msgs)),
        ("messages", .arr (msgs.map encodeMessage)),
        ("createdAt", .str m₀.timestamp), ("updatedAt", .str mLast.timestamp)]

lemma migrateLegacy_encode (msgs : List Message) (freshId : String) (m₀ mLast : Message)
    (hhead : msgs.head? = some m₀) (hlast : msgs.getLast? = some mLast) :
    migrateLegacy (msgs.map encodeMessage) freshId
      = some (migratedSessionJ msgs freshId m₀ mLast) := by
  obtain ⟨m, rest, rfl⟩ : ∃ m rest, msgs = m :: rest := by
    cases msgs with
    | nil => cases hhead
    | cons m rest => exact ⟨m, rest, rfl⟩
  have hm : m = m₀ := by simpa using hhead
  subst hm
  unfold migrateLegacy
  rw [filter_isValidMessage_encode, List.map_cons]
  dsimp only
  rw [← List.map_cons, find?_user_map_encode, getLast?_map_encode, hlast]
  unfold migratedSessionJ migratedTitle
  cases hfu : (m :: rest).find? (fun x => x.role == "user") with
  | none => rfl
  | some fu => rfl

/-- C6: for every valid non-empty session collection of at most 50 sessions,
loading right after saving hands back exactly the saved collection (the raw
array is the encoding of `S`, it decodes back to `S`, and the load has no
side effect on the store). -/
theorem load_save_roundtrip (store : LocalStore) (S : List Session) (freshId : String)
    (hne : S ≠ []) (hlen : S.length ≤ 50) :
    (loadSessions (saveSessions store S) freshId).1 = S.map encodeSession ∧
    decodeSessions (loadSessions (saveSessions store S) freshId).1 = some S ∧
    (loadSessions (saveSessions store S) freshId).2 = saveSessions store S := by
  have htake : (S.map encodeSession).take 50 = S.map encodeSession := by
    apply List.take_of_length_le
    rw [List.length_map]
    exact hlen
  have hsave : (saveSessions store S).sessionsKey = some (.arr (S.map encodeSession)) := by
    unfold saveSessions saveSessionsJ
    rw [htake]
  have hpos : 0 < (S.map encodeSession).length := by
    rw [List.length_map]
    exact List.length_pos.mpr hne
  have hload : loadSessions (saveSessions store S) freshId
      = (S.map encodeSession, saveSessions store S) := by
    unfold loadSessions
    rw [hsave]
    simp only [filter_isValidSession_encode, map_sessionMessagesFiltered_encode]
    rw [if_pos hpos]
  rw [hload]
  exact ⟨rfl, decodeSessions_map_encode S, rfl⟩

/-- Witness for C6 at a concrete one-session collection. -/
theorem load_save_roundtrip_witness :
    ([⟨"s1", "Hi", [⟨"m1", "user", "Hi", "T1", none⟩], "T0", "T2", none⟩] : List Session) ≠ [] ∧
    ([⟨"s1", "Hi", [⟨"m1", "user", "Hi", "T1", none⟩], "T0", "T2", none⟩] : List Session).length ≤ 50 ∧
    decodeSessions (loadSessions (saveSessions ⟨none, none⟩
        [⟨"s1", "Hi", [⟨"m1", "user", "Hi", "T1", none⟩], "T0", "T2", none⟩]) "f").1
      = some [⟨"s1", "Hi", [⟨"m1", "user", "Hi", "T1", none⟩], "T0", "T2", none⟩] :=
  ⟨by decide, by decide,
   (load_save_roundtrip ⟨none, none⟩
      [⟨"s1", "Hi", [⟨"m1", "user", "Hi", "T1", none⟩], "T0", "T2", none⟩] "f"
      (by decide) (by decide)).2.1⟩

/-- C7: with the current-schema key absent and the legacy key holding a flat
array of valid messages, `loadSessions` returns exactly one synthesized
session titled from the first user message (truncated to 40 characters, or
the default placeholder), with `createdAt` the first message's timestamp and
`updatedAt` the last message's; the legacy key is removed and the session is
re-saved under the current schema. -/
theorem legacy_migration (store : LocalStore) (msgs : List Message) (freshId : String)
    (m₀ mLast : Message)
    (hv2 : store.sessionsKey = none)
    (hleg : store.legacyKey = some (.arr (msgs.map encodeMessage)))
    (hhead : msgs.head? = some m₀) (hlast : msgs.getLast? = some mLast) :
    (loadSessions store freshId).1 = [migratedSessionJ msgs freshId m₀ mLast] ∧
    (loadSessions store freshId).2.legacyKey = none ∧
    (loadSessions store freshId).2.sessionsKey
      = some (.arr [migratedSessionJ msgs freshId m₀ mLast]) := by
  have hload : loadSessions store freshId =
      ([migratedSessionJ msgs freshId m₀ mLast],
       { sessionsKey := some (.arr [migratedSessionJ msgs freshId m₀ mLast]),
         legacyKey := none }) := by
    unfold loadSessions
    rw [hv2, hleg]
    dsimp only
    rw [migrateLegacy_encode msgs freshId m₀ mLast hhead hlast]
    rfl
  rw [hload]
  exact ⟨rfl, rfl, rfl⟩

/-- Concrete legacy history used to witness the migration claim. -/
def c7msgs : List Message :=
  [⟨"m1", "assistant", "Hey", "T1", none⟩,
   ⟨"m2", "user", "Hello world", "T2", none⟩,
   ⟨"m3", "assistant", "Sure", "T3", none⟩]

/-- Witness for C7 at the spec's own example: three valid legacy messages,
the second being the first user message. -/
theorem legacy_migration_witness :
    (loadSessions ⟨none, some (.arr (List.map encodeMessage c7msgs))⟩ "f").1
      = [migratedSessionJ c7msgs "f" ⟨"m1", "assistant", "Hey", "T1", none⟩
           ⟨"m3", "assistant", "Sure", "T3", none⟩] ∧
    (loadSessions ⟨none, some (.arr (List.map encodeMessage c7msgs))⟩ "f").2.legacyKey
      = none ∧
    migratedTitle c7msgs = "Hello world" := by
  have h := legacy_migration ⟨none, some (.arr (List.map encodeMessage c7msgs))⟩ c7msgs "f"
    ⟨"m1", "assistant", "Hey", "T1", none⟩ ⟨"m3", "assistant", "Sure", "T3", none⟩
    rfl rfl rfl rfl
  exact ⟨h.1, h.2.1, by decide⟩

/-- C3: the `sendMessage` guard — no active session, blank trimmed content, or
an in-flight operation — makes the call a complete no-op: the state is
untouched and no completion request is issued. -/
theorem sendMessage_guard_noop (st : ChatState) (content : String) (env : SendMessageEnv)
    (h : st.currentSessionId = none ∨ jsTrim content = "" ∨ st.isLoading = true) :
    sendMessage st content env =
      { state := st, requestIssued := false, requestHistory := none } := by
  unfold sendMessage
  rcases h with h | h | h
  · rw [h]
  · cases hc : st.currentSessionId with
    | none => rfl
    | some sid => simp [h]
  · cases hc : st.currentSessionId with
    | none => rfl
    | some sid => simp [h]

/-- Witness for C3: a second call while one is in flight is dropped. -/
theorem sendMessage_guard_noop_witness :
    sendMessage
      { sessions := [⟨"a", "New Chat", [], "T0", "T0", none⟩],
        currentSessionId := some "a", isLoading := true, chatStatus := .thinking }
      "hello"
      { userMsgId := "u1", now := "T1", outcome := .ok "resp", aiMsgId := "u2", aiNow := "T2" } =
    { state := { sessions := [⟨"a", "New Chat", [], "T0", "T0", none⟩],
                 currentSessionId := some "a", isLoading := true, chatStatus := .thinking },
      requestIssued := false, requestHistory := none } :=
  sendMessage_guard_noop _ _ _ (Or.inr (Or.inr rfl))

/-- C8: deleting the sole session leaves exactly one session, freshly created,
empty, and active. -/
theorem deleteSession_sole (st : ChatState) (s : Session) (freshId now : String)
    (h : st.sessions = [s]) :
    deleteSession st s.id freshId now =
      { st with sessions := [createEmptySession freshId now],
                currentSessionId := some freshId } ∧
    (createEmptySession freshId now).messages = [] ∧
    (createEmptySession freshId now).id = freshId := by
  refine ⟨?_, rfl, rfl⟩
  unfold deleteSession
  rw [h]
  simp [List.filter]

/-- Witness for C8 on a one-session store. -/
theorem deleteSession_sole_witness :
    deleteSession
      { sessions := [⟨"a", "Chat", [⟨"m", "user", "hi", "T", none⟩], "T", "T", none⟩],
        currentSessionId := some "a", isLoading := false, chatStatus := .idle }
      "a" "b" "T2" =
    { sessions := [createEmptySession "b" "T2"], currentSessionId := some "b",
      isLoading := false, chatStatus := .idle } :=
  (deleteSession_sole _ ⟨"a", "Chat", [⟨"m", "user", "hi", "T", none⟩], "T", "T", none⟩
    "b" "T2" rfl).1

lemma createNewSession_of_empty (st : ChatState) (f n : String)
    (h : currentIsEmpty st = true) : createNewSession st f n = st := by
  unfold createNewSession
  rw [if_pos h]

lemma createNewSession_of_not_empty (st : ChatState) (f n : String)
    (h : currentIsEmpty st = false) : createNewSession st f n =
      { st with sessions := createEmptySession f n :: st.sessions,
                currentSessionId := some f } := by
  unfold createNewSession
  simp [h]

lemma currentIsEmpty_after_create (st : ChatState) (f n : String) :
    currentIsEmpty { st with sessions := createEmptySession f n :: st.sessions,
                             currentSessionId := some f } = true := by
  unfold currentIsEmpty findCurrent
  simp [List.find?, createEmptySession]

/-- C9: consecutive `createNewSession` calls are idempotent (the second call
is always a no-op), because a created session is empty and active; moreover
the operation is a no-op exactly when the active session exists with zero
messages, and otherwise prepends a fresh empty session and makes it
active. -/
theorem createNewSession_spec (st : ChatState) (f₁ n₁ f₂ n₂ : String) :
    createNewSession (createNewSession st f₁ n₁) f₂ n₂ = createNewSession st f₁ n₁ ∧
    (currentIsEmpty st = true → createNewSession st f₁ n₁ = st) ∧
    (currentIsEmpty st = false → createNewSession st f₁ n₁ =
      { st with sessions := createEmptySession f₁ n₁ :: st.sessions,
                currentSessionId := some f₁ }) := by
  refine ⟨?_, createNewSession_of_empty st f₁ n₁, createNewSession_of_not_empty st f₁ n₁⟩
  cases h : currentIsEmpty st with
  | true =>
      rw [createNewSession_of_empty st f₁ n₁ h]
      exact createNewSession_of_empty st f₂ n₂ h
  | false =>
      rw [createNewSession_of_not_empty st f₁ n₁ h]
      exact createNewSession_of_empty _ f₂ n₂ (currentIsEmpty_after_create st f₁ n₁)

/-- Witness for C9 from a state whose active session is non-empty. -/
theorem createNewSession_spec_witness :
    (createNewSession (createNewSession
        { sessions := [⟨"a", "Chat", [⟨"m", "user", "hi", "T", none⟩], "T", "T", none⟩],
          currentSessionId := some "a", isLoading := false, chatStatus := .idle }
        "b" "T1") "c" "T2" =
      createNewSession
        { sessions := [⟨"a", "Chat", [⟨"m", "user", "hi", "T", none⟩], "T", "T", none⟩],
          currentSessionId := some "a", isLoading := false, chatStatus := .idle } "b" "T1") ∧
    (currentIsEmpty
        { sessions := [⟨"a", "Chat", [⟨"m", "user", "hi", "T", none⟩], "T", "T", none⟩],
          currentSessionId := some "a", isLoading := false, chatStatus := .idle } = true →
      createNewSession
        { sessions := [⟨"a", "Chat", [⟨"m", "user", "hi", "T", none⟩], "T", "T", none⟩],
          currentSessionId := some "a", isLoading := false, chatStatus := .idle } "b" "T1" =
        { sessions := [⟨"a", "Chat", [⟨"m", "user", "hi", "T", none⟩], "T", "T", none⟩],
          currentSessionId := some "a", isLoading := false, chatStatus := .idle }) ∧
    (currentIsEmpty
        { sessions := [⟨"a", "Chat", [⟨"m", "user", "hi", "T", none⟩], "T", "T", none⟩],
          currentSessionId := some "a", isLoading := false, chatStatus := .idle } = false →
      createNewSession
        { sessions := [⟨"a", "Chat", [⟨"m", "user", "hi", "T", none⟩], "T", "T", none⟩],
          currentSessionId := some "a", isLoading := false, chatStatus := .idle } "b" "T1" =
        { sessions := createEmptySession "b" "T1" ::
            [⟨"a", "Chat", [⟨"m", "user", "hi", "T", none⟩], "T", "T", none⟩],
          currentSessionId := some "b", isLoading := false, chatStatus := .idle }) :=
  createNewSession_spec _ "b" "T1" "c" "T2"

/-- C10: with the confirmation declined the store is untouched; with it
accepted only the active session changes, and only its `messages`, `title`
and `updatedAt` fields — ids, creation times, star flags, all other
sessions, and the active pointer are preserved. -/
theorem clearCurrentSession_frame (st : ChatState) (now : String) :
    clearCurrentSession st false now = st ∧
    (clearCurrentSession st true now).currentSessionId = st.currentSessionId ∧
    (clearCurrentSession st true now).isLoading = st.isLoading ∧
    (clearCurrentSession st true now).chatStatus = st.chatStatus ∧
    List.Forall₂ (fun s t =>
      t.id = s.id ∧ t.createdAt = s.createdAt ∧ t.starred = s.starred ∧
      ((st.currentSessionId == some s.id) = true →
        t.messages = [] ∧ t.title = "New Chat" ∧ t.updatedAt = now) ∧
      ((st.currentSessionId == some s.id) = false → t = s))
      st.sessions (clearCurrentSession st true now).sessions := by
  refine ⟨rfl, rfl, rfl, rfl, ?_⟩
  show List.Forall₂ _ st.sessions (st.sessions.map (fun s =>
    if st.currentSessionId == some s.id then
      { s with messages := [], title := "New Chat", updatedAt := now } else s))
  rw [List.forall₂_map_right_iff, List.forall₂_same]
  intro s _
  cases h : st.currentSessionId == some s.id with
  | true => simp [h]
  | false => simp [h]

lemma any_id_map (l : List Session) (f : Session → Session)
    (hid : ∀ s, (f s).id = s.id) (cid : String) :
    (l.map f).any (fun s => s.id == cid) = l.any (fun s => s.id == cid) := by
  induction l with
  | nil => rfl
  | cons a t ih => simp only [List.map_cons, List.any_cons, hid, ih]

lemma activeRefs_sessions_map (st : ChatState) (l : List Session) (b : Bool) (cs : StoreStatus)
    (f : Session → Session) (hid : ∀ s, (f s).id = s.id)
    (h : activeRefsExisting st = true) (hl : st.sessions = l) :
    activeRefsExisting ⟨l.map f, st.currentSessionId, b, cs⟩ = true := by
  unfold activeRefsExisting at h ⊢
  cases hc : st.currentSessionId with
  | none => rfl
  | some cid =>
      rw [hc] at h
      dsimp only at h ⊢
      rw [any_id_map _ f hid cid, ← hl]
      exact h

lemma sendMessage_state_cases (st : ChatState) (content : String) (env : SendMessageEnv) :
    (sendMessage st content env).state = st ∨
    ∃ f g : Session → Session, (∀ s, (f s).id = s.id) ∧ (∀ s, (g s).id = s.id) ∧
      (sendMessage st content env).state =
        ⟨(st.sessions.map f).map g, st.currentSessionId, false, .idle⟩ := by
  unfold sendMessage
  cases hc : st.currentSessionId with
  | none => left; rfl
  | some sid =>
      dsimp only
      cases hg : (sid == "" || jsTrim content == "" || st.isLoading) with
      | true => left; rfl
      | false =>
          right
          refine ⟨_, _, ?_, ?_, rfl⟩
          · intro s
            split <;> rfl
          · intro s
            split <;> rfl

/-- Counterexample to C5 as stated: from the freshly loaded one-session state,
the store operation `switchSession "ghost"` (a Session Store operation, one
step from the initial load) leaves the active pointer naming an id absent
from the collection. -/
theorem switchSession_breaks_invariant :
    activeRefsExisting (applyOp (initialLoadState [] "s0" "T0") (StoreOp.switch "ghost"))
      = false := by decide

/-- C5 amended: every store operation except `switchSession` preserves the
active-pointer invariant from any state satisfying it, and `switchSession`
preserves it exactly when the target id exists in the collection; moreover
`deleteSession` of the active session reassigns the pointer to the first
session of the resulting collection in the same step. -/
theorem store_ops_preserve_active_invariant (st : ChatState) (op : StoreOp)
    (hinv : activeRefsExisting st = true)
    (hswitch : ∀ i, op = StoreOp.switch i → st.sessions.any (fun s => s.id == i) = true) :
    activeRefsExisting (applyOp st op) = true ∧
    (∀ i fid now, op = StoreOp.delete i fid now → st.currentSessionId = some i →
      (applyOp st op).currentSessionId = ((applyOp st op).sessions.head?).map Session.id) := by
  cases op with
  | create freshId now =>
      refine ⟨?_, by intro a b c h; cases h⟩
      show activeRefsExisting (createNewSession st freshId now) = true
      cases h : currentIsEmpty st with
      | true => rw [createNewSession_of_empty st freshId now h]; exact hinv
      | false =>
          rw [createNewSession_of_not_empty st freshId now h]
          unfold activeRefsExisting
          dsimp only
          simp [createEmptySession]
  | switch i =>
      refine ⟨?_, by intro a b c h; cases h⟩
      show activeRefsExisting (switchSession st i) = true
      unfold switchSession activeRefsExisting
      dsimp only
      exact hswitch i rfl
  | rename i t =>
      refine ⟨?_, by intro a b c h; cases h⟩
      show activeRefsExisting (renameSession st i t) = true
      unfold renameSession
      dsimp only
      cases htr : (jsTrim t == "") with
      | true => exact hinv
      | false =>
          exact activeRefs_sessions_map st st.sessions st.isLoading st.chatStatus
            _ (fun s => by split <;> rfl) hinv rfl
  | star i =>
      refine ⟨?_, by intro a b c h; cases h⟩
      show activeRefsExisting (toggleStarSession st i) = true
      unfold toggleStarSession
      exact activeRefs_sessions_map st st.sessions st.isLoading st.chatStatus
        _ (fun s => by split <;> rfl) hinv rfl
  | clear confirmed now =>
      refine ⟨?_, by intro a b c h; cases h⟩
      show activeRefsExisting (clearCurrentSession st confirmed now) = true
      unfold clearCurrentSession
      cases confirmed with
      | false => exact hinv
      | true =>
          exact activeRefs_sessions_map st st.sessions st.isLoading st.chatStatus
            _ (fun s => by split <;> rfl) hinv rfl
  | send content env =>
      refine ⟨?_, by intro a b c h; cases h⟩
      show activeRefsExisting (sendMessage st content env).state = true
      rcases sendMessage_state_cases st content env with heq | ⟨f, g, hf, hg, heq⟩
      · rw [heq]; exact hinv
      · rw [heq]
        have h₁ : activeRefsExisting ⟨st.sessions.map f, st.currentSessionId,
            false, .idle⟩ = true :=
          activeRefs_sessions_map st st.sessions false .idle f hf hinv rfl
        exact activeRefs_sessions_map ⟨st.sessions.map f, st.currentSessionId, false, .idle⟩
          (st.sessions.map f) false .idle g hg h₁ rfl
  | delete i fid now =>
      constructor
      · show activeRefsExisting (deleteSession st i fid now) = true
        unfold deleteSession
        dsimp only
        cases hfil : st.sessions.filter (fun s => !(s.id == i)) with
        | nil =>
            unfold activeRefsExisting
            dsimp only
            simp [createEmptySession]
        | cons f₀ rest =>
            cases hcond : (st.currentSessionId == some i) with
            | true =>
                unfold activeRefsExisting
                dsimp only
                simp
            | false =>
                unfold activeRefsExisting
                dsimp only
                cases hc : st.currentSessionId with
                | none => rfl
                | some cid =>
                    rw [← hfil]
                    have hinv' : st.sessions.any (fun s => s.id == cid) = true := by
                      unfold activeRefsExisting at hinv
                      rw [hc] at hinv
                      exact hinv
                    obtain ⟨s, hmem, hsid⟩ := List.any_eq_true.mp hinv'
                    apply List.any_eq_true.mpr
                    refine ⟨s, List.mem_filter.mpr ⟨hmem, ?_⟩, hsid⟩
                    have hne : cid ≠ i := by
                      intro hci
                      subst hci
                      rw [hc] at hcond
                      simp at hcond
                    have hseq : s.id = cid := by simpa using hsid
                    simp [hseq, hne]
      · intro a b c heq hcur
        cases heq
        show (deleteSession st i fid now).currentSessionId
          = ((deleteSession st i fid now).sessions.head?).map Session.id
        unfold deleteSession
        dsimp only
        cases hfil : st.sessions.filter (fun s => !(s.id == i)) with
        | nil => rfl
        | cons f₀ rest =>
            rw [hcur]
            simp

/-- Witness for the amended C5 at a one-session state and an existing-id
switch. -/
theorem store_ops_preserve_active_invariant_witness :
    activeRefsExisting (applyOp (initialLoadState [] "s0" "T0") (StoreOp.switch "s0")) = true ∧
    (∀ i fid now, StoreOp.switch "s0" = StoreOp.delete i fid now →
      (initialLoadState [] "s0" "T0").currentSessionId = some i →
      (applyOp (initialLoadState [] "s0" "T0") (StoreOp.switch "s0")).currentSessionId
        = ((applyOp (initialLoadState [] "s0" "T0")
            (StoreOp.switch "s0")).sessions.head?).map Session.id) :=
  store_ops_preserve_active_invariant (initialLoadState [] "s0" "T0") (StoreOp.switch "s0")
    (by decide) (by intro i h; cases h; decide)

/-- Concrete two-session state used to witness the clear-session claim. -/
def c10state : ChatState :=
  { sessions := [⟨"a", "Hi", [⟨"m", "user", "hi", "T1", none⟩], "T0", "T1", some true⟩,
                 ⟨"b", "Other", [⟨"n", "user", "yo", "T2", none⟩], "T2", "T2", none⟩],
    currentSessionId := some "a", isLoading := false, chatStatus := .idle }

/-- Witness for C10 at a two-session state with the first session active. -/
theorem clearCurrentSession_frame_witness :
    clearCurrentSession c10state false "T9" = c10state ∧
    (clearCurrentSession c10state true "T9").currentSessionId = c10state.currentSessionId ∧
    (clearCurrentSession c10state true "T9").isLoading = c10state.isLoading ∧
    (clearCurrentSession c10state true "T9").chatStatus = c10state.chatStatus ∧
    List.Forall₂ (fun s t =>
      t.id = s.id ∧ t.createdAt = s.createdAt ∧ t.starred = s.starred ∧
      ((c10state.currentSessionId == some s.id) = true →
        t.messages = [] ∧ t.title = "New Chat" ∧ t.updatedAt = "T9") ∧
      ((c10state.currentSessionId == some s.id) = false → t = s))
      c10state.sessions (clearCurrentSession c10state true "T9").sessions :=
  clearCurrentSession_frame c10state "T9"

/-- C1: a first completion response of HTTP 400 whose error message signals a
failed tool-call generation makes the client retry exactly once, with the
same message list and without the tool declaration; when the retry succeeds
with usable content that content is returned directly, and exactly two
completion calls are issued in total. -/
theorem retry_without_tools (env : CompletionEnv) (hist : List OpenAIMessage)
    (sysPrompt key : String) (body body₂ : Json) (status₂ : Nat) (c : String)
    (hkey : env.apiKey = some key) (hk₁ : (key == "") = false)
    (hk₂ : (key == "your_groq_api_key_here") = false)
    (hfirst : env.first = .resp 400 body)
    (hmsg : (strIncludes (extractErrMsg body) "Failed to call a function" ||
             strIncludes (extractErrMsg body) "failed_generation") = true)
    (hsecond : env.second = .resp status₂ body₂)
    (hok : isOkStatus status₂ = true)
    (hcontent : usableContent body₂ = some c) :
    (sendChatMessage env hist sysPrompt).calls =
      [{ messages := systemMessage sysPrompt :: hist, includeTools := true },
       { messages := systemMessage sysPrompt :: hist, includeTools := false }] ∧
    (sendChatMessage env hist sysPrompt).result = .ok c := by
  unfold sendChatMessage
  rw [hkey]
  dsimp only
  rw [hk₁, hk₂, hfirst]
  dsimp only
  rw [hmsg, hsecond]
  dsimp only
  rw [hok, hcontent]
  exact ⟨rfl, rfl⟩

/-- Environment witnessing the 400 tool-failure retry path: first call 400
with the trigger message, retry succeeding with content. -/
def c1env : CompletionEnv :=
  { apiKey := some "k",
    first := .resp 400 (.obj [("error", .obj [("message",
      .str "Failed to call a function: bad generation")])]),
    second := .resp 200 (.obj [("choices", .arr [.obj [("message",
      .obj [("content", .str "Hello")])]])]),
    tavily := { apiKey := none, fetchOutcome := .netErr "x" } }

/-- Witness for C1 at the concrete retry environment. -/
theorem retry_without_tools_witness :
    (sendChatMessage c1env [] "sys").calls =
      [{ messages := [systemMessage "sys"], includeTools := true },
       { messages := [systemMessage "sys"], includeTools := false }] ∧
    (sendChatMessage c1env [] "sys").result = .ok "Hello" :=
  retry_without_tools c1env [] "sys" "k" _ _ 200 "Hello"
    rfl rfl rfl rfl (by decide) rfl rfl rfl

/-- Environment for the retry-path status trace: identical shape to the C1
witness environment. -/
def c2env : CompletionEnv :=
  { apiKey := some "k",
    first := .resp 400 (.obj [("error", .obj [("message",
      .str "Failed to call a function: bad generation")])]),
    second := .resp 200 (.obj [("choices", .arr [.obj [("message",
      .obj [("content", .str "Hello")])]])]),
    tavily := { apiKey := none, fetchOutcome := .netErr "x" } }

/-- Counterexample to C2 as stated: on the 400 tool-failure retry path the
client emits thinking twice, a trace that is neither of the two claimed
sequences. -/
theorem status_trace_counterexample :
    (sendChatMessage c2env [] "sys").statuses = [.thinking, .thinking] ∧
    ¬((sendChatMessage c2env [] "sys").statuses = [.thinking] ∨
      (sendChatMessage c2env [] "sys").statuses = [.thinking, .searching, .thinking]) := by
  decide

/-- C2 amended: the `onStatusChange` trace of one `sendChatMessage` run is
always one of the empty trace (missing API key, failing before any
notification), thinking alone, thinking twice (the 400 tool-failure retry
path re-notifies thinking), or thinking-searching-thinking; an empty trace
happens only on the missing-key failure.  The trace is part of the run's
final observables, so no notification follows the settled result. -/
theorem status_trace_classification (env : CompletionEnv) (hist : List OpenAIMessage)
    (sysPrompt : String) :
    ((sendChatMessage env hist sysPrompt).statuses = [] ∨
     (sendChatMessage env hist sysPrompt).statuses = [.thinking] ∨
     (sendChatMessage env hist sysPrompt).statuses = [.thinking, .thinking] ∨
     (sendChatMessage env hist sysPrompt).statuses = [.thinking, .searching, .thinking]) ∧
    ((sendChatMessage env hist sysPrompt).statuses = [] →
      (sendChatMessage env hist sysPrompt).result = .error (.openai missingKeyError)) := by
  unfold sendChatMessage
  rcases env with ⟨apiKey, first, second, tavily⟩
  dsimp only
  cases apiKey with
  | none => simp
  | some key =>
      dsimp only
      cases hkb : (key == "" || key == "your_groq_api_key_here") with
      | true => simp
      | false =>
          cases first with
          | netErr m => simp
          | resp status body =>
              dsimp only
              cases hok : isOkStatus status with
              | false =>
                  cases h400 : status == 400 with
                  | true =>
                      cases hmsg : (strIncludes (extractErrMsg body) "Failed to call a function" ||
                          strIncludes (extractErrMsg body) "failed_generation") with
                      | true =>
                          cases second with
                          | netErr m => simp
                          | resp s₂ b₂ =>
                              dsimp only
                              cases hok₂ : isOkStatus s₂ with
                              | false => simp
                              | true =>
                                  cases hc : usableContent b₂ with
                                  | none => simp
                                  | some c => simp
                      | false => simp
                  | false => simp
              | true =>
                  cases hfr : (finishReasonOf body).isStr "tool_calls" with
                  | false =>
                      cases hc : usableContent body with
                      | none => simp
                      | some c => simp
                  | true =>
                      cases htc : jsTruthyO (firstToolCall body) with
                      | false => simp
                      | true =>
                          cases hq : parseQueryArgs ((firstToolCall body).getD .null) with
                          | error e => simp
                          | ok q =>
                              cases second with
                              | netErr m => simp
                              | resp s₂ b₂ =>
                                  dsimp only
                                  cases hok₂ : isOkStatus s₂ with
                                  | false => simp
                                  | true =>
                                      cases hc : usableContent b₂ with
                                      | none => simp
                                      | some c => simp

/-- Witness for the amended C2 at the retry environment. -/
theorem status_trace_classification_witness :
    ((sendChatMessage c2env [] "sys").statuses = [] ∨
     (sendChatMessage c2env [] "sys").statuses = [.thinking] ∨
     (sendChatMessage c2env [] "sys").statuses = [.thinking, .thinking] ∨
     (sendChatMessage c2env [] "sys").statuses = [.thinking, .searching, .thinking]) ∧
    ((sendChatMessage c2env [] "sys").statuses = [] →
      (sendChatMessage c2env [] "sys").result = .error (.openai missingKeyError)) :=
  status_trace_classification c2env [] "sys"

/-- C4: in the tool-call path a failing Search Client (here: any failure,
including a missing credential) is not propagated — the fallback payload is
substituted as the tool result, the second completion call is still issued
(without tools), the status trace still runs thinking-searching-thinking,
and a usable second response makes the whole operation succeed (with an
empty citation block appended). -/
theorem search_failure_fallback (env : CompletionEnv) (hist : List OpenAIMessage)
    (sysPrompt key : String) (status₁ : Nat) (body : Json) (e : String)
    (q : Option Json) (status₂ : Nat) (body₂ : Json) (c : String)
    (hkey : env.apiKey = some key) (hk₁ : (key == "") = false)
    (hk₂ : (key == "your_groq_api_key_here") = false)
    (hfirst : env.first = .resp status₁ body)
    (hok₁ : isOkStatus status₁ = true)
    (hfr : (finishReasonOf body).isStr "tool_calls" = true)
    (htc : jsTruthyO (firstToolCall body) = true)
    (hq : parseQueryArgs ((firstToolCall body).getD .null) = .ok q)
    (hsearch : searchWeb env.tavily = .error e)
    (hsecond : env.second = .resp status₂ body₂)
    (hok₂ : isOkStatus status₂ = true)
    (hcontent : usableContent body₂ = some c) :
    (sendChatMessage env hist sysPrompt).statuses =
      [.thinking, .searching, .thinking] ∧
    (sendChatMessage env hist sysPrompt).calls =
      [{ messages := systemMessage sysPrompt :: hist, includeTools := true },
       { messages := (systemMessage sysPrompt :: hist) ++
           [{ role := "assistant", content := none, tool_calls := toolCallsOf body,
              tool_call_id := none },
            { role := "tool", content := some searchFallbackPayload,
              tool_call_id := ((firstToolCall body).getD .null).field? "id" }],
         includeTools := false }] ∧
    (sendChatMessage env hist sysPrompt).result = .ok (c ++ "") := by
  unfold sendChatMessage
  rw [hkey]
  dsimp only
  rw [hk₁, hk₂, hfirst]
  dsimp only
  rw [hok₁, hfr, htc, hq]
  dsimp only
  rw [hsearch, hsecond]
  dsimp only
  rw [hok₂, hcontent]
  exact ⟨rfl, rfl, rfl⟩

/-- The tool call the witness model response carries. -/
def c4toolCall : Json :=
  .obj [("id", .str "call1"),
        ("function", .obj [("name", .str "web_search"),
                           ("arguments", .str "\x7b\"query\":\"weather\"\x7d")])]

/-- First-response body requesting the web-search tool. -/
def c4body : Json :=
  .obj [("choices", .arr [.obj [
    ("finish_reason", .str "tool_calls"),
    ("message", .obj [("tool_calls", .arr [c4toolCall])])]])]

/-- Environment for the search-failure fallback: the Tavily credential is
absent, both completion calls succeed. -/
def c4env : CompletionEnv :=
  { apiKey := some "k", first := .resp 200 c4body,
    second := .resp 200 (.obj [("choices", .arr [.obj [("message",
      .obj [("content", .str "Answer")])]])]),
    tavily := { apiKey := none, fetchOutcome := .netErr "unused" } }

/-- Witness for C4 at the concrete missing-credential environment. -/
theorem search_failure_fallback_witness :
    (sendChatMessage c4env [] "sys").statuses = [.thinking, .searching, .thinking] ∧
    (sendChatMessage c4env [] "sys").calls =
      [{ messages := [systemMessage "sys"], includeTools := true },
       { messages := [systemMessage "sys",
           { role := "assistant", content := none, tool_calls := some (.arr [c4toolCall]),
             tool_call_id := none },
           { role := "tool", content := some searchFallbackPayload,
             tool_call_id := some (.str "call1") }],
         includeTools := false }] ∧
    (sendChatMessage c4env [] "sys").result = .ok ("Answer" ++ "") :=
  search_failure_fallback c4env [] "sys" "k" 200 c4body "Tavily API key is not configured."
    (some (.str "weather")) 200
    (.obj [("choices", .arr [.obj [("message", .obj [("content", .str "Answer")])]])]) "Answer"
    rfl rfl rfl rfl rfl rfl rfl rfl rfl rfl rfl rfl
